import Mathlib

/-!
Shallow embedding of the RAG demo scripts `llama_intro.py`, `test.py` and
`test_gemini.py`, together with proofs of the specification's claims about
them.

The scripts are configuration glue over an external RAG library.  Pure and
stateful Python code is embedded as Lean functions over an explicit
environment (`Env`), filesystem (`FS`) and event trace (`List Ev`); Python
exceptions become `Except PyErr`.  Library components that do not belong to
this repository (the directory reader, the vector index, the retriever, the
similarity postprocessor, the response synthesizer) are modelled from the
specification's contract for them, as parameters or as explicitly marked
`Modelled from the spec` definitions.
-/

set_option linter.unusedVariables false

/-- Log levels of the Python `logging` module that the scripts use. -/
inductive LogLevel where
  | info
  | warning
  | error
  | critical
deriving DecidableEq, Repr

/-- Python exceptions raised by the scripts.  `runtimeError` carries the
optional `__cause__` installed by `raise ... from cause`. -/
inductive PyErr where
  | valueError (msg : String)
  | fileNotFoundError (msg : String)
  | runtimeError (msg : String) (cause : Option PyErr)
deriving Repr

/-- `str(e)` on the modelled exceptions: their message. -/
def PyErr.str : PyErr → String
  | .valueError m => m
  | .fileNotFoundError m => m
  | .runtimeError m _ => m

/-- A document as produced by the directory reader: source path and text. -/
structure Doc where
  id : String
  text : String
deriving DecidableEq, Repr

/-- A chunk (node) of a document held by the index. -/
structure Chunk where
  docId : String
  text : String
deriving DecidableEq, Repr

/-- Observable events of a run: log records, reader invocations, index
builds, provider (embedding / LLM completion) calls, and prints. -/
inductive Ev where
  | log (lvl : LogLevel) (msg : String)
  | readerCall (dir : String)
  | indexBuild
  | embedCall (text : String)
  | llmComplete
  | printOut (s : String)
deriving DecidableEq, Repr

/-- Network calls to the embedding or LLM provider. -/
def Ev.isProviderCall : Ev → Bool
  | .embedCall _ => true
  | .llmComplete => true
  | _ => false

/-- Number of provider (network) calls recorded in a trace. -/
def providerCallCount (evs : List Ev) : Nat :=
  evs.countP Ev.isProviderCall

/-- The process environment after `load_dotenv()`: an association list from
variable names to values; `os.getenv` is first-match lookup. -/
abbrev Env := List (String × String)

/-- `os.getenv(k)`. -/
def getenv (env : Env) (k : String) : Option String :=
  env.lookup k

/-- `os.environ[k] = v`. -/
def setenv (env : Env) (k v : String) : Env :=
  (k, v) :: env

/-- `llama_intro.load_api_key`: reads `OPEN_API_KEY`; `if not api_key`
(unset or empty) it logs and raises `ValueError`, otherwise it writes the
value back to the environment and returns it.  The `except` clause logs and
re-raises the same exception. -/
def load_api_key (env : Env) : Except PyErr (String × Env) × List Ev :=
  match getenv env "OPEN_API_KEY" with
  | none =>
      (.error (.valueError "OPEN_API_KEY is missing."),
       [.log .error "OPEN_API_KEY not found. Please set the API key in environment variables.",
        .log .error "Error loading API key."])
  | some v =>
      if v = "" then
        (.error (.valueError "OPEN_API_KEY is missing."),
         [.log .error "OPEN_API_KEY not found. Please set the API key in environment variables.",
          .log .error "Error loading API key."])
      else
        (.ok (v, setenv env "OPEN_API_KEY" v),
         [.log .info "Successfully loaded OpenAI API key from environment."])

/-- `test_gemini.load_env_vars`: reads `GOOGLE_API_KEY`; raises `ValueError`
only when the lookup returns `None`, and otherwise returns the value —
including the empty string. -/
def load_env_vars (env : Env) : Except PyErr String × List Ev :=
  match getenv env "GOOGLE_API_KEY" with
  | none =>
      (.error (.valueError "GOOGLE_API_KEY not found."),
       [.log .error "GOOGLE_API_KEY not found in environment variables.",
        .log .error "Error loading environment variables."])
  | some v =>
      (.ok v, [.log .info "Environment variables loaded successfully."])

/-- The filesystem as the scripts observe it: `os.path.exists`, and the
behavior of the external `SimpleDirectoryReader(dir).load_data()` on each
directory (a document list, or the exception the reader raises). -/
structure FS where
  pathExists : String → Bool
  readDir : String → Except PyErr (List Doc)

/-- A configured LLM object; the scripts pass only provider, model name and
(for OpenAI) temperature — never the loaded credential. -/
structure LLMConfig where
  provider : String
  model : String
  temperature : Option ℚ
deriving DecidableEq, Repr

/-- `llama_intro.configure_llm`: builds `OpenAI(temperature=0.2,
model="gpt-3.5-turbo")` and stores it in `Settings.llm`; the `api_key`
argument is never used. -/
def configure_llm (apiKey : String) : LLMConfig × List Ev :=
  ({ provider := "openai", model := "gpt-3.5-turbo", temperature := some ((2 : ℚ) / 10) },
   [.log .info "LLM successfully configured with OpenAI settings."])

/-- `test_gemini.create_llm`: loads the key via `load_env_vars` (re-raising
its failure after logging) and builds `Gemini(model="models/gemini-pro")`
without passing the key. -/
def create_llm (env : Env) : Except PyErr LLMConfig × List Ev :=
  match load_env_vars env with
  | (.error e, evs) =>
      (.error e, evs ++ [.log .error "Error creating Google Gemini model."])
  | (.ok _key, evs) =>
      (.ok { provider := "gemini", model := "models/gemini-pro", temperature := none },
       evs ++ [.log .info "Google Gemini model created successfully."])

/-- The chunk a document contributes to the index (the demo corpus is small,
so a chunk is the whole document, per the data model). -/
def docChunk (d : Doc) : Chunk :=
  { docId := d.id, text := d.text }

/-- The in-memory vector index: the documents it was built from and their
chunks (each embedded at build time). -/
structure Index where
  docs : List Doc
  chunks : List Chunk
deriving DecidableEq, Repr

/-- Modelled from the spec: `VectorStoreIndex.from_documents` (Indexer
contract, not part of this repository) — splits each document into chunks,
computes an embedding for every chunk via the external provider (one
provider call per chunk), and returns an immediately queryable index. -/
def from_documents (documents : List Doc) : Index × List Ev :=
  ({ docs := documents, chunks := documents.map docChunk },
   documents.map (fun d => .embedCall d.text))

/-- `llama_intro.load_documents_and_index`: checks `os.path.exists` and
raises `FileNotFoundError` naming the directory; wraps a reader failure in
`RuntimeError(...) from reader_error`; raises `ValueError` when zero
documents were loaded; otherwise builds the index and returns it with the
document count.  The outer `except` clauses log and re-raise. -/
def load_documents_and_index (fs : FS) (dataDir : String) :
    Except PyErr (Index × Nat) × List Ev :=
  if fs.pathExists dataDir = false then
    (.error (.fileNotFoundError ("Directory \x27" ++ dataDir ++ "\x27 not found.")),
     [.log .error ("Data directory \x27" ++ dataDir ++ "\x27 does not exist."),
      .log .error ("FileNotFoundError: Directory \x27" ++ dataDir ++ "\x27 not found.")])
  else
    let pre : List Ev :=
      [.log .info ("Loading documents from directory: " ++ dataDir), .readerCall dataDir]
    match fs.readDir dataDir with
    | .error readerError =>
        (.error (.runtimeError ("Document loading failed: " ++ readerError.str)
                  (some readerError)),
         pre ++ [.log .error "Failed to load data using SimpleDirectoryReader.",
                 .log .error ("RuntimeError: Document loading failed: " ++ readerError.str)])
    | .ok documents =>
        if documents.isEmpty then
          (.error (.valueError "No documents available to load."),
           pre ++ [.log .warning "No documents found in the specified directory.",
                   .log .warning "ValueError: No documents available to load."])
        else
          let built := from_documents documents
          (.ok (built.1, documents.length),
           pre ++ [.log .info ("Successfully loaded " ++ toString documents.length ++ " documents."),
                   .indexBuild]
               ++ built.2
               ++ [.log .info "VectorStoreIndex created successfully."])

/-- `test_gemini.create_index`: calls
`SimpleDirectoryReader("data").load_data()` with no existence or emptiness
check, builds the index, and on any failure logs and re-raises the same
exception. -/
def create_index (fs : FS) : Except PyErr Index × List Ev :=
  match fs.readDir "data" with
  | .error e =>
      (.error e, [.readerCall "data", .log .error "Error creating index."])
  | .ok documents =>
      let built := from_documents documents
      (.ok built.1,
       [.readerCall "data", .indexBuild] ++ built.2
         ++ [.log .info "Index created successfully."])

/-- A retrieved chunk paired with its similarity score. -/
structure ScoredChunk where
  chunk : Chunk
  score : ℚ
deriving DecidableEq, Repr

/-- A deterministic embedding provider, seen through the similarity it
induces between a query text and an indexed chunk. -/
abbrev Embedder := String → Chunk → ℚ

/-- Stable insertion keeping scores in descending order. -/
def insertDesc (x : ScoredChunk) : List ScoredChunk → List ScoredChunk
  | [] => [x]
  | y :: ys => if y.score < x.score then x :: y :: ys else y :: insertDesc x ys

/-- Stable sort by descending score. -/
def sortDesc : List ScoredChunk → List ScoredChunk
  | [] => []
  | x :: xs => insertDesc x (sortDesc xs)

/-- Modelled from the spec: `VectorIndexRetriever.retrieve` (not part of
this repository) — scores every chunk of the index against the query
embedding, orders them by descending similarity, and returns at most
`similarity_top_k` of them. -/
def vectorIndexRetrieve (emb : Embedder) (index : Index) (similarityTopK : Nat)
    (q : String) : List ScoredChunk :=
  (sortDesc (index.chunks.map (fun c => { chunk := c, score := emb q c }))).take
    similarityTopK

/-- Modelled from the spec: `SimilarityPostprocessor` (not part of this
repository) — keeps exactly the nodes whose score is at least the cutoff. -/
def similarity_postprocess (cutoff : ℚ) (nodes : List ScoredChunk) : List ScoredChunk :=
  nodes.filter (fun n => cutoff ≤ n.score)

/-- A configured `RetrieverQueryEngine`: its index, the retriever's
`similarity_top_k`, the cutoffs of its `SimilarityPostprocessor` list, and
the response-synthesis mode. -/
structure QueryEngine where
  index : Index
  similarityTopK : Nat
  cutoffs : List ℚ
  responseMode : String
deriving DecidableEq, Repr

/-- `llama_intro.setup_query_engine`: retriever with `similarity_top_k=5`,
one `SimilarityPostprocessor(similarity_cutoff=0.8)`, compact synthesizer. -/
def setup_query_engine (index : Index) : QueryEngine × List Ev :=
  ({ index := index, similarityTopK := 5, cutoffs := [(8 : ℚ) / 10],
     responseMode := "compact" },
   [.log .info "RetrieverQueryEngine successfully configured."])

/-- The query engine `test_gemini.main` assembles:
`VectorIndexRetriever(index, similarity_top_k=10)` and no postprocessor. -/
def gemini_query_engine (index : Index) : QueryEngine :=
  { index := index, similarityTopK := 10, cutoffs := [], responseMode := "default" }

/-- The chunks the engine's retriever returns for a query, before any
postprocessing. -/
def retrievedNodes (emb : Embedder) (qe : QueryEngine) (q : String) : List ScoredChunk :=
  vectorIndexRetrieve emb qe.index qe.similarityTopK q

/-- The node list handed to the response synthesizer: the retrieved nodes
after every configured similarity postprocessor has run, in order. -/
def synthesizerInput (emb : Embedder) (qe : QueryEngine) (q : String) : List ScoredChunk :=
  qe.cutoffs.foldl (fun nodes c => similarity_postprocess c nodes)
    (retrievedNodes emb qe q)

/-- A synthesized response: answer text and the source nodes used. -/
structure Response where
  text : String
  sourceNodes : List ScoredChunk
deriving DecidableEq, Repr

/-- The external response synthesizer, seen as a function of the query and
the surviving nodes. -/
abbrev Synth := String → List ScoredChunk → String

/-- Modelled from the spec: `RetrieverQueryEngine.query` (not part of this
repository) — embeds the query (one provider call), retrieves, runs the
postprocessors, and synthesizes an answer from the surviving nodes (one LLM
completion call). -/
def engineQuery (emb : Embedder) (synth : Synth) (qe : QueryEngine) (q : String) :
    Response × List Ev :=
  let nodes := synthesizerInput emb qe q
  ({ text := synth q nodes, sourceNodes := nodes },
   [.embedCall q, .llmComplete])

/-- `llama_intro.execute_query`: logs, runs `query_engine.query`, logs
again; any failure would be logged and re-raised. -/
def execute_query (emb : Embedder) (synth : Synth) (qe : QueryEngine) (q : String) :
    Except PyErr Response × List Ev :=
  let run := engineQuery emb synth qe q
  (.ok run.1,
   [.log .info ("Executing query: " ++ q)] ++ run.2
     ++ [.log .info "Query executed successfully."])

/-- The `except` clause of `llama_intro.main`: log the failure as critical;
the exception is swallowed there (no re-raise). -/
def criticalTrace (e : PyErr) : List Ev :=
  [.log .critical ("Application failed to execute due to an error: " ++ e.str)]

/-- `llama_intro.main`: load key, configure LLM, load documents and index
from `"data"`, set up the query engine, run the sample query, print the
response.  Any exception is caught at this level, logged as critical and
swallowed, so the function always returns normally; the `finally` clause
logs completion on every path. -/
def llamaMain (env : Env) (fs : FS) (emb : Embedder) (synth : Synth) : List Ev :=
  [Ev.log .info "Starting the application."] ++
    (match load_api_key env with
     | (.error e, evs) => evs ++ criticalTrace e
     | (.ok (apiKey, _env2), evs) =>
       evs ++ (configure_llm apiKey).2 ++
         (match load_documents_and_index fs "data" with
          | (.error e, evs2) => evs2 ++ criticalTrace e
          | (.ok (index, docCount), evs2) =>
            evs2 ++ [Ev.log .info ("Number of documents loaded: " ++ toString docCount)] ++
              (match setup_query_engine index with
               | (queryEngine, evs3) =>
                 evs3 ++
                   (match execute_query emb synth queryEngine
                       "What is the content of the documents?" with
                    | (.error e, evs4) => evs4 ++ criticalTrace e
                    | (.ok response, evs4) =>
                      evs4 ++ [Ev.log .info ("Response: " ++ response.text),
                               Ev.printOut ("Query Response:\n" ++ response.text)]))))
    ++ [Ev.log .info "Application execution completed."]

/-- `test_gemini.main`: create the LLM, create the index, assemble the
retriever and query engine, run the sample query.  Its `except` clause logs
at error level and RE-RAISES, so a stage failure leaves `main` as an
uncaught exception (`.error`). -/
def geminiMain (env : Env) (fs : FS) (emb : Embedder) (synth : Synth) :
    Except PyErr Unit × List Ev :=
  match create_llm env with
  | (.error e, evs) => (.error e, evs ++ [.log .error "Error in main function."])
  | (.ok _llm, evs) =>
    match create_index fs with
    | (.error e, evs2) =>
        (.error e, evs ++ evs2 ++ [.log .error "Error in main function."])
    | (.ok index, evs2) =>
        let run := engineQuery emb synth (gemini_query_engine index) "Sample query text"
        (.ok (),
         evs ++ evs2 ++ [.log .info "Retriever and query engine set up successfully."]
           ++ run.2 ++ [.log .info ("Query results: " ++ run.1.text)])

/-- The rendering `test.py` prints for the key lookup debug line. -/
def showKey : Option String → String
  | none => "None"
  | some v => v

/-- `test.py` module body: print the key lookup, raise `ValueError` if the
key is unset or empty (`if not open_api_key`), otherwise call
`OpenAI(...).complete(...)` — the one provider call — and print the result.
`complete` is the external completion endpoint, a function of the key and
the prompt. -/
def testPyModule (env : Env) (complete : String → String → String) :
    Except PyErr String × List Ev :=
  let debugEv := Ev.printOut ("OPEN_API_KEY: " ++ showKey (getenv env "OPEN_API_KEY"))
  match getenv env "OPEN_API_KEY" with
  | none =>
      (.error (.valueError
        "API key not found. Please set the OPEN_API_KEY environment variable."),
       [debugEv])
  | some v =>
      if v = "" then
        (.error (.valueError
          "API key not found. Please set the OPEN_API_KEY environment variable."),
         [debugEv])
      else
        let resp := complete v "who is bhagath singh"
        (.ok resp, [debugEv, .llmComplete, .printOut resp])

/-! ### Concrete fixtures used by witnesses and counterexamples -/

/-- The spec's sample document. -/
def sampleDoc : Doc :=
  { id := "data/sky.txt", text := "The sky is blue." }

/-- A filesystem whose `data` directory holds exactly the sample document. -/
def sampleFS : FS :=
  { pathExists := fun _ => true, readDir := fun _ => .ok [sampleDoc] }

/-- A filesystem on which no path exists; its reader raises accordingly. -/
def missingFS : FS :=
  { pathExists := fun _ => false,
    readDir := fun d =>
      .error (.fileNotFoundError ("Directory \x27" ++ d ++ "\x27 not found.")) }

/-- A filesystem whose directories exist but hold no loadable documents. -/
def emptyDirFS : FS :=
  { pathExists := fun _ => true, readDir := fun _ => .ok [] }

/-- A filesystem whose reader fails on every directory. -/
def failingFS : FS :=
  { pathExists := fun _ => true,
    readDir := fun _ => .error (.valueError "unsupported encoding") }

/-- A trivial deterministic embedding provider. -/
def zeroEmb : Embedder := fun _ _ => 0

/-- A trivial response synthesizer. -/
def emptySynth : Synth := fun _ _ => ""

/-- A completion endpoint that returns a fixed answer. -/
def fixedComplete : String → String → String := fun _ _ => "an answer"

/-! ### C1 -/

/-- C1 counterexample: with `GOOGLE_API_KEY` set but empty,
`test_gemini.load_env_vars` does not raise; it returns the empty string as
the secret, contradicting the claim that every credential loader raises on
an empty variable and never returns an empty secret. -/
theorem C1_counterexample :
    getenv [("GOOGLE_API_KEY", "")] "GOOGLE_API_KEY" = some "" ∧
    (load_env_vars [("GOOGLE_API_KEY", "")]).1 = .ok "" := by
  exact ⟨rfl, rfl⟩

/-- C1 (amended): `load_api_key` raises `ValueError` when `OPEN_API_KEY` is
unset or empty and otherwise returns the non-empty value (after rewriting it
to the environment); `load_env_vars` raises `ValueError` only when
`GOOGLE_API_KEY` is unset, and returns whatever value is set — including the
empty string. -/
theorem C1_amended_credential_loaders (env : Env) :
    ((getenv env "OPEN_API_KEY" = none ∨ getenv env "OPEN_API_KEY" = some "") →
      (load_api_key env).1 = .error (.valueError "OPEN_API_KEY is missing.")) ∧
    (∀ v, getenv env "OPEN_API_KEY" = some v → v ≠ "" →
      (load_api_key env).1 = .ok (v, setenv env "OPEN_API_KEY" v)) ∧
    (getenv env "GOOGLE_API_KEY" = none →
      (load_env_vars env).1 = .error (.valueError "GOOGLE_API_KEY not found.")) ∧
    (∀ v, getenv env "GOOGLE_API_KEY" = some v → (load_env_vars env).1 = .ok v) := by
  refine ⟨?_, ?_, ?_, ?_⟩
  · rintro (h | h) <;> simp [load_api_key, h]
  · intro v hv hne
    simp [load_api_key, hv, hne]
  · intro h
    simp [load_env_vars, h]
  · intro v hv
    simp [load_env_vars, hv]

/-- C1 amended theorem, instantiated at concrete environments. -/
theorem C1_amended_credential_loaders_witness :
    (load_api_key [("OPEN_API_KEY", "")]).1 =
      .error (.valueError "OPEN_API_KEY is missing.") ∧
    (load_api_key [("OPEN_API_KEY", "k1")]).1 =
      .ok ("k1", setenv [("OPEN_API_KEY", "k1")] "OPEN_API_KEY" "k1") ∧
    (load_env_vars []).1 = .error (.valueError "GOOGLE_API_KEY not found.") ∧
    (load_env_vars [("GOOGLE_API_KEY", "g")]).1 = .ok "g" :=
  ⟨(C1_amended_credential_loaders _).1 (Or.inr rfl),
   (C1_amended_credential_loaders _).2.1 "k1" rfl (by decide),
   (C1_amended_credential_loaders _).2.2.1 rfl,
   (C1_amended_credential_loaders _).2.2.2 "g" rfl⟩

/-! ### C2 -/

/-- C2 counterexample: on a filesystem where the `data` directory does not
exist, `test_gemini.create_index` still invokes the directory reader — the
read is attempted, so no directory-not-found error is raised before an
attempt to read documents, contradicting the claim for `create_index`. -/
theorem C2_counterexample :
    missingFS.pathExists "data" = false ∧
    Ev.readerCall "data" ∈ (create_index missingFS).2 := by
  refine ⟨rfl, ?_⟩
  simp [create_index, missingFS]

/-- C2 (amended): `load_documents_and_index` raises `FileNotFoundError`
containing the offending path before any read or index-build attempt when
the directory does not exist; `create_index` performs no existence check —
it invokes the reader unconditionally and propagates whatever exception the
reader raises. -/
theorem C2_amended_directory_not_found (fs : FS) (dataDir : String) (e : PyErr) :
    (fs.pathExists dataDir = false →
      (load_documents_and_index fs dataDir).1 =
        .error (.fileNotFoundError ("Directory \x27" ++ dataDir ++ "\x27 not found.")) ∧
      (∃ pre post,
        "Directory \x27" ++ dataDir ++ "\x27 not found." = pre ++ dataDir ++ post) ∧
      (∀ d, Ev.readerCall d ∉ (load_documents_and_index fs dataDir).2) ∧
      Ev.indexBuild ∉ (load_documents_and_index fs dataDir).2) ∧
    (fs.readDir "data" = .error e →
      (create_index fs).1 = .error e ∧
      Ev.readerCall "data" ∈ (create_index fs).2) := by
  constructor
  · intro h
    refine ⟨?_, ⟨"Directory \x27", "\x27 not found.", rfl⟩, ?_, ?_⟩
    · simp [load_documents_and_index, h]
    · intro d
      simp [load_documents_and_index, h]
    · simp [load_documents_and_index, h]
  · intro h
    constructor
    · simp [create_index, h]
    · simp [create_index, h]

/-- C2 amended theorem, instantiated at a concrete missing-directory
filesystem. -/
theorem C2_amended_directory_not_found_witness :
    (load_documents_and_index missingFS "nope").1 =
      .error (.fileNotFoundError "Directory \x27nope\x27 not found.") ∧
    (create_index missingFS).1 =
      .error (.fileNotFoundError "Directory \x27data\x27 not found.") :=
  ⟨((C2_amended_directory_not_found missingFS "nope"
      (.valueError "unused")).1 rfl).1,
   ((C2_amended_directory_not_found missingFS "data"
      (.fileNotFoundError "Directory \x27data\x27 not found.")).2 rfl).1⟩

/-! ### C3 -/

/-- C3: on an existing directory that yields zero documents,
`load_documents_and_index` raises `ValueError` and returns nothing; and
whenever it does return, the index was built from the full non-empty
document sequence the reader produced, with the matching count — never from
an empty or partially-populated sequence. -/
theorem C3_no_documents_error (fs : FS) (dataDir : String)
    (hex : fs.pathExists dataDir = true) :
    (fs.readDir dataDir = .ok [] →
      (load_documents_and_index fs dataDir).1 =
        .error (.valueError "No documents available to load.")) ∧
    (∀ index n, (load_documents_and_index fs dataDir).1 = .ok (index, n) →
      ∃ documents, fs.readDir dataDir = .ok documents ∧ documents ≠ [] ∧
        index.docs = documents ∧ index.chunks = documents.map docChunk ∧
        n = documents.length) := by
  constructor
  · intro hread
    simp [load_documents_and_index, hex, hread]
  · intro index n hok
    cases hread : fs.readDir dataDir with
    | error e =>
        simp [load_documents_and_index, hex, hread] at hok
    | ok documents =>
        cases hdocs : documents.isEmpty with
        | true =>
            simp [load_documents_and_index, hex, hread, hdocs] at hok
        | false =>
            refine ⟨documents, rfl, ?_, ?_⟩
            · intro hnil
              rw [hnil] at hdocs
              simp at hdocs
            · simp [load_documents_and_index, hex, hread, hdocs,
                from_documents] at hok
              exact ⟨hok.1.symm ▸ rfl, hok.1.symm ▸ rfl, hok.2.symm⟩

/-- C3 theorem, instantiated at an empty directory and at the sample
corpus. -/
theorem C3_no_documents_error_witness :
    (load_documents_and_index emptyDirFS "data").1 =
      .error (.valueError "No documents available to load.") ∧
    (∃ documents, sampleFS.readDir "data" = .ok documents ∧ documents ≠ [] ∧
      (from_documents [sampleDoc]).1.docs = documents ∧
      (from_documents [sampleDoc]).1.chunks = documents.map docChunk ∧
      1 = documents.length) :=
  ⟨(C3_no_documents_error emptyDirFS "data" rfl).1 rfl,
   (C3_no_documents_error sampleFS "data" rfl).2 (from_documents [sampleDoc]).1 1 rfl⟩

/-! ### C4 -/

/-- Wrapping an exception as its own cause strictly grows it, so the
wrapper is never the original exception. -/
theorem runtimeError_wrap_ne (m : String) (e : PyErr) :
    PyErr.runtimeError m (some e) ≠ e := by
  intro h
  have hs := congrArg sizeOf h
  simp at hs
  omega

/-- C4: when the directory exists and the underlying reader raises,
`load_documents_and_index` raises `RuntimeError` carrying the reader's
exception as its cause, and never re-raises the low-level exception
directly. -/
theorem C4_wraps_reader_failure (fs : FS) (dataDir : String) (e : PyErr)
    (hex : fs.pathExists dataDir = true)
    (hread : fs.readDir dataDir = .error e) :
    (load_documents_and_index fs dataDir).1 =
      .error (.runtimeError ("Document loading failed: " ++ e.str) (some e)) ∧
    (load_documents_and_index fs dataDir).1 ≠ .error e := by
  have h1 : (load_documents_and_index fs dataDir).1 =
      .error (.runtimeError ("Document loading failed: " ++ e.str) (some e)) := by
    simp [load_documents_and_index, hex, hread]
  refine ⟨h1, ?_⟩
  rw [h1]
  intro hcontra
  have : PyErr.runtimeError ("Document loading failed: " ++ e.str) (some e) = e := by
    exact Except.error.inj hcontra
  exact runtimeError_wrap_ne _ e this

/-- C4 theorem, instantiated at a reader that fails with an encoding
error. -/
theorem C4_wraps_reader_failure_witness :
    (load_documents_and_index failingFS "data").1 =
      .error (.runtimeError
        ("Document loading failed: " ++ (PyErr.valueError "unsupported encoding").str)
        (some (.valueError "unsupported encoding"))) ∧
    (load_documents_and_index failingFS "data").1 ≠
      .error (.valueError "unsupported encoding") :=
  C4_wraps_reader_failure failingFS "data" (.valueError "unsupported encoding") rfl rfl

/-! ### C5 -/

/-- Descending insertion adds exactly one element. -/
theorem length_insertDesc (x : ScoredChunk) (l : List ScoredChunk) :
    (insertDesc x l).length = l.length + 1 := by
  induction l with
  | nil => rfl
  | cons y ys ih =>
      simp only [insertDesc]
      split
      · simp
      · simp [ih]

/-- Descending sort preserves length. -/
theorem length_sortDesc (l : List ScoredChunk) :
    (sortDesc l).length = l.length := by
  induction l with
  | nil => rfl
  | cons x xs ih => simp [sortDesc, length_insertDesc, ih]

/-- C5: the retriever returns at most `similarity_top_k` chunks, and the
cutoff postprocessing can only shrink that set — so the bound holds both
before and after filtering, with `top_k = 5` for the engine
`llama_intro.setup_query_engine` builds and `top_k = 10` for the engine
`test_gemini.main` builds. -/
theorem C5_top_k_bounds_results (emb : Embedder) (index : Index) (q : String) :
    (retrievedNodes emb (setup_query_engine index).1 q).length ≤ 5 ∧
    (synthesizerInput emb (setup_query_engine index).1 q).length ≤ 5 ∧
    (retrievedNodes emb (gemini_query_engine index) q).length ≤ 10 ∧
    (synthesizerInput emb (gemini_query_engine index) q).length ≤ 10 := by
  have hk : ∀ (qe : QueryEngine),
      (retrievedNodes emb qe q).length ≤ qe.similarityTopK := by
    intro qe
    simp only [retrievedNodes, vectorIndexRetrieve, List.length_take]
    exact Nat.min_le_left _ _
  have h5 : (retrievedNodes emb (setup_query_engine index).1 q).length ≤ 5 :=
    hk (setup_query_engine index).1
  have h10 : (retrievedNodes emb (gemini_query_engine index) q).length ≤ 10 :=
    hk (gemini_query_engine index)
  refine ⟨h5, ?_, h10, ?_⟩
  · have hfil : (synthesizerInput emb (setup_query_engine index).1 q).length ≤
        (retrievedNodes emb (setup_query_engine index).1 q).length := by
      simp only [synthesizerInput, setup_query_engine, List.foldl_cons, List.foldl_nil,
        similarity_postprocess]
      exact List.length_filter_le _ _
    exact le_trans hfil h5
  · exact h10

/-! ### C6 -/

/-- C6: in the engine `llama_intro.setup_query_engine` builds, the 0.8
cutoff runs after top-K retrieval — the synthesizer receives exactly the
retrieved chunks scoring at least 0.8, every retrieved chunk scoring below
0.8 is discarded, and nothing outside the retrieved set is added. -/
theorem C6_cutoff_after_top_k (emb : Embedder) (synth : Synth) (index : Index)
    (q : String) :
    synthesizerInput emb (setup_query_engine index).1 q =
      (retrievedNodes emb (setup_query_engine index).1 q).filter
        (fun n => (8 : ℚ) / 10 ≤ n.score) ∧
    (∀ n ∈ retrievedNodes emb (setup_query_engine index).1 q,
      (8 : ℚ) / 10 ≤ n.score →
        n ∈ synthesizerInput emb (setup_query_engine index).1 q) ∧
    (∀ n ∈ retrievedNodes emb (setup_query_engine index).1 q,
      n.score < (8 : ℚ) / 10 →
        n ∉ synthesizerInput emb (setup_query_engine index).1 q) ∧
    (∀ n ∈ synthesizerInput emb (setup_query_engine index).1 q,
      n ∈ retrievedNodes emb (setup_query_engine index).1 q ∧
        (8 : ℚ) / 10 ≤ n.score) ∧
    (engineQuery emb synth (setup_query_engine index).1 q).1.text =
      synth q (synthesizerInput emb (setup_query_engine index).1 q) := by
  have heq : synthesizerInput emb (setup_query_engine index).1 q =
      (retrievedNodes emb (setup_query_engine index).1 q).filter
        (fun n => (8 : ℚ) / 10 ≤ n.score) := rfl
  refine ⟨heq, ?_, ?_, ?_, rfl⟩
  · intro n hn hs
    rw [heq]
    exact List.mem_filter.mpr ⟨hn, by simpa using hs⟩
  · intro n hn hs
    rw [heq]
    intro hmem
    have hge := (List.mem_filter.mp hmem).2
    simp only [decide_eq_true_eq] at hge
    exact absurd hge (not_le.mpr hs)
  · intro n hn
    rw [heq] at hn
    have hm := List.mem_filter.mp hn
    exact ⟨hm.1, by simpa using hm.2⟩

/-- A two-chunk corpus whose chunks straddle the 0.8 cutoff. -/
def twoChunkIndex : Index :=
  { docs := [{ id := "a", text := "hi" }, { id := "b", text := "lo" }],
    chunks := [{ docId := "a", text := "hi" }, { docId := "b", text := "lo" }] }

/-- A deterministic embedder scoring the `"hi"` chunk 0.9 and others 0.5. -/
def splitEmb : Embedder := fun _ c => if c.text = "hi" then (9 : ℚ) / 10 else (1 : ℚ) / 2

/-- C6 theorem, instantiated on the two-chunk corpus: the 0.9-scoring chunk
survives the cutoff and the 0.5-scoring chunk is discarded. -/
theorem C6_cutoff_after_top_k_witness :
    ({ chunk := { docId := "a", text := "hi" }, score := (9 : ℚ) / 10 } : ScoredChunk) ∈
      synthesizerInput splitEmb (setup_query_engine twoChunkIndex).1 "q" ∧
    ({ chunk := { docId := "b", text := "lo" }, score := (1 : ℚ) / 2 } : ScoredChunk) ∉
      synthesizerInput splitEmb (setup_query_engine twoChunkIndex).1 "q" := by
  have hretr : retrievedNodes splitEmb (setup_query_engine twoChunkIndex).1 "q" =
      [{ chunk := { docId := "a", text := "hi" }, score := (9 : ℚ) / 10 },
       { chunk := { docId := "b", text := "lo" }, score := (1 : ℚ) / 2 }] := by
    simp [retrievedNodes, vectorIndexRetrieve, setup_query_engine, twoChunkIndex,
      splitEmb, sortDesc, insertDesc]
    norm_num
  exact
    ⟨(C6_cutoff_after_top_k splitEmb emptySynth twoChunkIndex "q").2.1 _
        (by rw [hretr]; simp) (by norm_num),
     (C6_cutoff_after_top_k splitEmb emptySynth twoChunkIndex "q").2.2.1 _
        (by rw [hretr]; simp) (by norm_num)⟩

/-! ### C7 -/

/-- C7: for a fixed engine (hence fixed index) and fixed query text, two
calls to `execute_query` whose embedding provider returns the same score for
every (query, chunk) pair — a deterministic provider across the two calls —
produce identical results: the same response, the same source chunks in the
same order, and identical similarity scores. -/
theorem C7_retrieval_deterministic (emb1 emb2 : Embedder) (synth : Synth)
    (qe : QueryEngine) (q : String)
    (hdet : ∀ s c, emb1 s c = emb2 s c) :
    execute_query emb1 synth qe q = execute_query emb2 synth qe q ∧
    (engineQuery emb1 synth qe q).1.sourceNodes =
      (engineQuery emb2 synth qe q).1.sourceNodes ∧
    (engineQuery emb1 synth qe q).1.sourceNodes.map ScoredChunk.chunk =
      (engineQuery emb2 synth qe q).1.sourceNodes.map ScoredChunk.chunk ∧
    (engineQuery emb1 synth qe q).1.sourceNodes.map ScoredChunk.score =
      (engineQuery emb2 synth qe q).1.sourceNodes.map ScoredChunk.score := by
  have hemb : emb1 = emb2 := funext fun s => funext fun c => hdet s c
  subst hemb
  exact ⟨rfl, rfl, rfl, rfl⟩

/-- C7 theorem, instantiated at the sample fixtures (the two calls use the
same deterministic provider). -/
theorem C7_retrieval_deterministic_witness :
    execute_query splitEmb emptySynth (setup_query_engine twoChunkIndex).1 "q" =
      execute_query splitEmb emptySynth (setup_query_engine twoChunkIndex).1 "q" :=
  (C7_retrieval_deterministic splitEmb splitEmb emptySynth
    (setup_query_engine twoChunkIndex).1 "q" (fun _ _ => rfl)).1

/-! ### C8 -/

/-- C8: with the credential variable absent, `llama_intro.main` stops at
`load_api_key` — its whole trace is the startup log, the loader's error
logs, the critical log and the completion log, so `configure_llm`, document
loading, indexing and querying never run and zero provider calls occur; in
`test.py`, the key check precedes the completion call, so the module body
raises with zero provider calls. -/
theorem C8_no_provider_calls_without_key (env : Env) (fs : FS) (emb : Embedder)
    (synth : Synth) (complete : String → String → String)
    (h : getenv env "OPEN_API_KEY" = none) :
    llamaMain env fs emb synth =
      [Ev.log .info "Starting the application.",
       Ev.log .error "OPEN_API_KEY not found. Please set the API key in environment variables.",
       Ev.log .error "Error loading API key.",
       Ev.log .critical "Application failed to execute due to an error: OPEN_API_KEY is missing.",
       Ev.log .info "Application execution completed."] ∧
    providerCallCount (llamaMain env fs emb synth) = 0 ∧
    (testPyModule env complete).1 = .error (.valueError
      "API key not found. Please set the OPEN_API_KEY environment variable.") ∧
    providerCallCount (testPyModule env complete).2 = 0 := by
  have hl : llamaMain env fs emb synth =
      [Ev.log .info "Starting the application.",
       Ev.log .error "OPEN_API_KEY not found. Please set the API key in environment variables.",
       Ev.log .error "Error loading API key.",
       Ev.log .critical "Application failed to execute due to an error: OPEN_API_KEY is missing.",
       Ev.log .info "Application execution completed."] := by
    simp [llamaMain, load_api_key, h, criticalTrace, PyErr.str]
  have ht : (testPyModule env complete).2 =
      [Ev.printOut ("OPEN_API_KEY: " ++ showKey none)] := by
    simp [testPyModule, h]
  refine ⟨hl, ?_, ?_, ?_⟩
  · rw [hl]
    rfl
  · simp [testPyModule, h]
  · rw [ht]
    rfl

/-- C8 theorem, instantiated at an empty environment. -/
theorem C8_no_provider_calls_without_key_witness :
    providerCallCount (llamaMain [] sampleFS zeroEmb emptySynth) = 0 ∧
    providerCallCount (testPyModule [] fixedComplete).2 = 0 :=
  ⟨(C8_no_provider_calls_without_key [] sampleFS zeroEmb emptySynth
      fixedComplete rfl).2.1,
   (C8_no_provider_calls_without_key [] sampleFS zeroEmb emptySynth
      fixedComplete rfl).2.2.2⟩

/-! ### C9 -/

/-- An event that is neither a print nor a critical-level log. -/
def Ev.quiet : Ev → Bool
  | .printOut _ => false
  | .log .critical _ => false
  | _ => true

/-- No print event occurs in the trace. -/
def noPrints (evs : List Ev) : Prop := ∀ s, Ev.printOut s ∉ evs

/-- Some critical-level log occurs in the trace. -/
def hasCriticalLog (evs : List Ev) : Prop := ∃ m, Ev.log .critical m ∈ evs

/-- No critical-level log occurs in the trace. -/
def noCriticalLog (evs : List Ev) : Prop := ∀ m, Ev.log .critical m ∉ evs

/-- A trace of quiet events has no prints and no critical logs. -/
theorem quiet_trace_props (evs : List Ev) (h : ∀ ev ∈ evs, ev.quiet = true) :
    noPrints evs ∧ noCriticalLog evs := by
  constructor
  · intro s hs
    have hq := h _ hs
    simp [Ev.quiet] at hq
  · intro m hm
    have hq := h _ hm
    simp [Ev.quiet] at hq

/-- `load_api_key` only logs, never at critical level. -/
theorem quiet_load_api_key (env : Env) :
    ∀ ev ∈ (load_api_key env).2, ev.quiet = true := by
  intro ev hev
  cases h : getenv env "OPEN_API_KEY" with
  | none =>
      simp [load_api_key, h] at hev
      (try casesm* _ ∨ _, Exists _, _ ∧ _) <;> subst_vars <;> simp_all [Ev.quiet]
  | some v =>
      by_cases hv : v = "" <;> simp [load_api_key, h, hv] at hev <;>
        (try casesm* _ ∨ _, Exists _, _ ∧ _) <;> subst_vars <;> simp_all [Ev.quiet]

/-- `load_documents_and_index` logs, reads, builds and embeds — it never
prints and never logs at critical level. -/
theorem quiet_load_documents_and_index (fs : FS) (dataDir : String) :
    ∀ ev ∈ (load_documents_and_index fs dataDir).2, ev.quiet = true := by
  intro ev hev
  cases hex : fs.pathExists dataDir with
  | false =>
      simp [load_documents_and_index, hex] at hev
      (try casesm* _ ∨ _, Exists _, _ ∧ _) <;> subst_vars <;> simp_all [Ev.quiet]
  | true =>
      cases hr : fs.readDir dataDir with
      | error e =>
          simp [load_documents_and_index, hex, hr] at hev
          (try casesm* _ ∨ _, Exists _, _ ∧ _) <;> subst_vars <;> simp_all [Ev.quiet]
      | ok documents =>
          cases hemp : documents.isEmpty with
          | true =>
              simp [load_documents_and_index, hex, hr, hemp] at hev
              (try casesm* _ ∨ _, Exists _, _ ∧ _) <;> subst_vars <;> simp_all [Ev.quiet]
          | false =>
              simp [load_documents_and_index, hex, hr, hemp, from_documents] at hev
              (try casesm* _ ∨ _, Exists _, _ ∧ _) <;> subst_vars <;> simp_all [Ev.quiet]

/-- `load_env_vars` only logs, never at critical level. -/
theorem quiet_load_env_vars (env : Env) :
    ∀ ev ∈ (load_env_vars env).2, ev.quiet = true := by
  intro ev hev
  cases h : getenv env "GOOGLE_API_KEY" with
  | none =>
      simp [load_env_vars, h] at hev
      (try casesm* _ ∨ _, Exists _, _ ∧ _) <;> subst_vars <;> simp_all [Ev.quiet]
  | some v =>
      simp [load_env_vars, h] at hev
      simp_all [Ev.quiet]

/-- `create_llm` only logs, never at critical level. -/
theorem quiet_create_llm (env : Env) :
    ∀ ev ∈ (create_llm env).2, ev.quiet = true := by
  intro ev hev
  rcases hlv : load_env_vars env with ⟨r, evs⟩
  have hq : ∀ e ∈ evs, Ev.quiet e = true := by
    have hall := quiet_load_env_vars env
    rw [hlv] at hall
    exact hall
  cases r with
  | error e =>
      simp [create_llm, hlv] at hev
      (try casesm* _ ∨ _, Exists _, _ ∧ _) <;> subst_vars <;>
        first
          | exact hq _ (by assumption)
          | simp_all [Ev.quiet]
  | ok v =>
      simp [create_llm, hlv] at hev
      (try casesm* _ ∨ _, Exists _, _ ∧ _) <;> subst_vars <;>
        first
          | exact hq _ (by assumption)
          | simp_all [Ev.quiet]

/-- `create_index` reads, builds, embeds and logs — it never prints and
never logs at critical level. -/
theorem quiet_create_index (fs : FS) :
    ∀ ev ∈ (create_index fs).2, ev.quiet = true := by
  intro ev hev
  cases hr : fs.readDir "data" with
  | error e =>
      simp [create_index, hr] at hev
      (try casesm* _ ∨ _, Exists _, _ ∧ _) <;> subst_vars <;> simp_all [Ev.quiet]
  | ok documents =>
      simp [create_index, hr, from_documents] at hev
      (try casesm* _ ∨ _, Exists _, _ ∧ _) <;> subst_vars <;> simp_all [Ev.quiet]

/-- `test_gemini.main` never prints and never logs at critical level. -/
theorem quiet_geminiMain (env : Env) (fs : FS) (emb : Embedder) (synth : Synth) :
    ∀ ev ∈ (geminiMain env fs emb synth).2, ev.quiet = true := by
  intro ev hev
  rcases hcl : create_llm env with ⟨r, evs⟩
  have hq1 : ∀ e ∈ evs, Ev.quiet e = true := by
    have hall := quiet_create_llm env
    rw [hcl] at hall
    exact hall
  cases r with
  | error e =>
      simp [geminiMain, hcl] at hev
      (try casesm* _ ∨ _, Exists _, _ ∧ _) <;> subst_vars <;>
        first
          | exact hq1 _ (by assumption)
          | simp_all [Ev.quiet]
  | ok llm =>
      rcases hci : create_index fs with ⟨r2, evs2⟩
      have hq2 : ∀ e ∈ evs2, Ev.quiet e = true := by
        have hall := quiet_create_index fs
        rw [hci] at hall
        exact hall
      cases r2 with
      | error e =>
          simp [geminiMain, hcl, hci] at hev
          (try casesm* _ ∨ _, Exists _, _ ∧ _) <;> subst_vars <;>
            first
              | exact hq1 _ (by assumption)
              | exact hq2 _ (by assumption)
              | simp_all [Ev.quiet]
      | ok index =>
          simp [geminiMain, hcl, hci, engineQuery] at hev
          (try casesm* _ ∨ _, Exists _, _ ∧ _) <;> subst_vars <;>
            first
              | exact hq1 _ (by assumption)
              | exact hq2 _ (by assumption)
              | simp_all [Ev.quiet]

/-- When the credential loader fails, `llama_intro.main` logs the failure as
critical and returns normally: its whole trace is the startup log, the
loader's trace, the critical log and the completion log. -/
theorem llamaMain_key_failure (env : Env) (fs : FS) (emb : Embedder)
    (synth : Synth) (e : PyErr) (he : (load_api_key env).1 = .error e) :
    llamaMain env fs emb synth =
      [Ev.log .info "Starting the application."] ++
        ((load_api_key env).2 ++ criticalTrace e) ++
        [Ev.log .info "Application execution completed."] := by
  rcases hk : load_api_key env with ⟨r, evs⟩
  rw [hk] at he
  simp only at he
  subst he
  simp [llamaMain, hk]

/-- When document loading fails after a successful credential load,
`llama_intro.main` logs the failure as critical and returns normally. -/
theorem llamaMain_docs_failure (env : Env) (fs : FS) (emb : Embedder)
    (synth : Synth) (apiKey : String) (env2 : Env) (e : PyErr)
    (hk : (load_api_key env).1 = .ok (apiKey, env2))
    (hd : (load_documents_and_index fs "data").1 = .error e) :
    llamaMain env fs emb synth =
      [Ev.log .info "Starting the application."] ++
        ((load_api_key env).2 ++ (configure_llm apiKey).2 ++
          ((load_documents_and_index fs "data").2 ++ criticalTrace e)) ++
        [Ev.log .info "Application execution completed."] := by
  rcases hka : load_api_key env with ⟨r, evs⟩
  rw [hka] at hk
  simp only at hk
  subst hk
  rcases hda : load_documents_and_index fs "data" with ⟨r2, evs2⟩
  rw [hda] at hd
  simp only at hd
  subst hd
  simp [llamaMain, hka, hda]

/-- C9 counterexample: with the credential variable absent,
`test_gemini.main` does not catch-and-terminate — it re-raises, leaving an
uncaught exception, and its trace holds no critical (fatal-level) log, so
the claim that the top-level entry point catches all remaining errors and
logs them as fatal is false for `test_gemini.py`. -/
theorem C9_counterexample :
    (geminiMain [] missingFS zeroEmb emptySynth).1 =
      .error (.valueError "GOOGLE_API_KEY not found.") ∧
    (geminiMain [] missingFS zeroEmb emptySynth).2.countP
      (fun ev => match ev with | .log .critical _ => true | _ => false) = 0 := by
  exact ⟨rfl, rfl⟩

/-- C9 (amended): every stage re-raises failures to its caller
(`create_llm` and `create_index` propagate the underlying error unchanged,
as do the `llama_intro` stages, whose failures reach `main`);
`llama_intro.main` catches every stage failure, logs it as critical, and
terminates normally without printing any (partial) response; but
`test_gemini.main` logs stage failures at error level — not as fatal — and
re-raises them, terminating with an uncaught exception; it prints nothing
either way. -/
theorem C9_amended_error_propagation (env : Env) (fs : FS) (emb : Embedder)
    (synth : Synth) :
    (∀ e, (load_env_vars env).1 = .error e → (create_llm env).1 = .error e) ∧
    (∀ e, fs.readDir "data" = .error e → (create_index fs).1 = .error e) ∧
    (∀ e, (load_api_key env).1 = .error e →
      hasCriticalLog (llamaMain env fs emb synth) ∧
      noPrints (llamaMain env fs emb synth)) ∧
    (∀ e apiKey env2, (load_api_key env).1 = .ok (apiKey, env2) →
      (load_documents_and_index fs "data").1 = .error e →
      hasCriticalLog (llamaMain env fs emb synth) ∧
      noPrints (llamaMain env fs emb synth)) ∧
    (∀ e, (create_llm env).1 = .error e →
      (geminiMain env fs emb synth).1 = .error e) ∧
    (∀ e, (geminiMain env fs emb synth).1 = .error e →
      Ev.log .error "Error in main function." ∈ (geminiMain env fs emb synth).2 ∧
      noCriticalLog (geminiMain env fs emb synth).2 ∧
      noPrints (geminiMain env fs emb synth).2) := by
  refine ⟨?_, ?_, ?_, ?_, ?_, ?_⟩
  · intro e he
    rcases hlv : load_env_vars env with ⟨r, evs⟩
    rw [hlv] at he
    simp only at he
    subst he
    simp [create_llm, hlv]
  · intro e he
    simp [create_index, he]
  · intro e he
    have htr := llamaMain_key_failure env fs emb synth e he
    constructor
    · exact ⟨"Application failed to execute due to an error: " ++ e.str,
        by rw [htr]; simp [criticalTrace]⟩
    · intro s
      rw [htr]
      simp [criticalTrace]
      intro hmem
      have hq := quiet_load_api_key env _ hmem
      simp [Ev.quiet] at hq
  · intro e apiKey env2 hk hd
    have htr := llamaMain_docs_failure env fs emb synth apiKey env2 e hk hd
    constructor
    · exact ⟨"Application failed to execute due to an error: " ++ e.str,
        by rw [htr]; simp [criticalTrace]⟩
    · intro s
      rw [htr]
      simp [criticalTrace, configure_llm]
      constructor
      · intro hmem
        have hq := quiet_load_api_key env _ hmem
        simp [Ev.quiet] at hq
      · intro hmem
        have hq := quiet_load_documents_and_index fs "data" _ hmem
        simp [Ev.quiet] at hq
  · intro e he
    rcases hcl : create_llm env with ⟨r, evs⟩
    rw [hcl] at he
    simp only at he
    subst he
    simp [geminiMain, hcl]
  · intro e he
    have hquiet := quiet_geminiMain env fs emb synth
    have hprops := quiet_trace_props _ hquiet
    refine ⟨?_, hprops.2, hprops.1⟩
    rcases hcl : create_llm env with ⟨r, evs⟩
    cases r with
    | error e2 => simp [geminiMain, hcl]
    | ok llm =>
        rcases hci : create_index fs with ⟨r2, evs2⟩
        cases r2 with
        | error e3 => simp [geminiMain, hcl, hci]
        | ok index =>
            rw [geminiMain] at he
            simp [hcl, hci, engineQuery] at he

/-- C9 amended theorem, instantiated at concrete failing scenarios for each
stage and entry point. -/
theorem C9_amended_error_propagation_witness :
    (create_llm []).1 = .error (.valueError "GOOGLE_API_KEY not found.") ∧
    (create_index failingFS).1 = .error (.valueError "unsupported encoding") ∧
    (hasCriticalLog (llamaMain [] sampleFS zeroEmb emptySynth) ∧
      noPrints (llamaMain [] sampleFS zeroEmb emptySynth)) ∧
    (hasCriticalLog (llamaMain [("OPEN_API_KEY", "k")] emptyDirFS zeroEmb emptySynth) ∧
      noPrints (llamaMain [("OPEN_API_KEY", "k")] emptyDirFS zeroEmb emptySynth)) ∧
    (geminiMain [] sampleFS zeroEmb emptySynth).1 =
      .error (.valueError "GOOGLE_API_KEY not found.") ∧
    (Ev.log .error "Error in main function." ∈
        (geminiMain [] sampleFS zeroEmb emptySynth).2 ∧
      noCriticalLog (geminiMain [] sampleFS zeroEmb emptySynth).2 ∧
      noPrints (geminiMain [] sampleFS zeroEmb emptySynth).2) :=
  ⟨(C9_amended_error_propagation [] sampleFS zeroEmb emptySynth).1 _ rfl,
   (C9_amended_error_propagation [] failingFS zeroEmb emptySynth).2.1 _ rfl,
   (C9_amended_error_propagation [] sampleFS zeroEmb emptySynth).2.2.1 _ rfl,
   (C9_amended_error_propagation [("OPEN_API_KEY", "k")] emptyDirFS zeroEmb
      emptySynth).2.2.2.1 _ _ _ rfl rfl,
   (C9_amended_error_propagation [] sampleFS zeroEmb emptySynth).2.2.2.2.1 _ rfl,
   (C9_amended_error_propagation [] sampleFS zeroEmb emptySynth).2.2.2.2.2 _ rfl⟩

/-! ### C10 -/

/-- C10: the LLM configuration ignores the loaded credential value —
`configure_llm` builds the same object for any `api_key` argument,
`create_llm` builds the same object for any set `GOOGLE_API_KEY` value, the
whole `llama_intro.main` run (its full trace, hence every downstream
result) is identical for any two non-empty `OPEN_API_KEY` values, and the
loaded key's only effect in `load_api_key` is being returned and rewritten
to the environment. -/
theorem C10_credential_value_independence (fs : FS) (emb : Embedder)
    (synth : Synth) (k1 k2 : String) :
    (configure_llm k1).1 = (configure_llm k2).1 ∧
    (∀ envA envB gA gB, getenv envA "GOOGLE_API_KEY" = some gA →
      getenv envB "GOOGLE_API_KEY" = some gB →
      (create_llm envA).1 = (create_llm envB).1) ∧
    (∀ env1 env2 v1 v2, getenv env1 "OPEN_API_KEY" = some v1 → v1 ≠ "" →
      getenv env2 "OPEN_API_KEY" = some v2 → v2 ≠ "" →
      llamaMain env1 fs emb synth = llamaMain env2 fs emb synth) ∧
    (∀ env v, getenv env "OPEN_API_KEY" = some v → v ≠ "" →
      (load_api_key env).1 = .ok (v, setenv env "OPEN_API_KEY" v)) := by
  refine ⟨rfl, ?_, ?_, ?_⟩
  · intro envA envB gA gB hA hB
    simp [create_llm, load_env_vars, hA, hB]
  · intro env1 env2 v1 v2 h1 hne1 h2 hne2
    have hl1 : load_api_key env1 =
        (.ok (v1, setenv env1 "OPEN_API_KEY" v1),
         [.log .info "Successfully loaded OpenAI API key from environment."]) := by
      simp [load_api_key, h1, hne1]
    have hl2 : load_api_key env2 =
        (.ok (v2, setenv env2 "OPEN_API_KEY" v2),
         [.log .info "Successfully loaded OpenAI API key from environment."]) := by
      simp [load_api_key, h2, hne2]
    simp [llamaMain, hl1, hl2, configure_llm]
  · intro env v hv hne
    simp [load_api_key, hv, hne]

/-- C10 theorem, instantiated at two environments holding distinct
non-empty keys. -/
theorem C10_credential_value_independence_witness :
    (configure_llm "key-one").1 = (configure_llm "key-two").1 ∧
    (create_llm [("GOOGLE_API_KEY", "g1")]).1 =
      (create_llm [("GOOGLE_API_KEY", "g2")]).1 ∧
    llamaMain [("OPEN_API_KEY", "a")] sampleFS zeroEmb emptySynth =
      llamaMain [("OPEN_API_KEY", "b")] sampleFS zeroEmb emptySynth ∧
    (load_api_key [("OPEN_API_KEY", "a")]).1 =
      .ok ("a", setenv [("OPEN_API_KEY", "a")] "OPEN_API_KEY" "a") :=
  ⟨(C10_credential_value_independence sampleFS zeroEmb emptySynth
      "key-one" "key-two").1,
   (C10_credential_value_independence sampleFS zeroEmb emptySynth
      "key-one" "key-two").2.1 _ _ "g1" "g2" rfl rfl,
   (C10_credential_value_independence sampleFS zeroEmb emptySynth
      "key-one" "key-two").2.2.1 _ _ "a" "b" rfl (by decide) rfl (by decide),
   (C10_credential_value_independence sampleFS zeroEmb emptySynth
      "key-one" "key-two").2.2.2 _ "a" rfl (by decide)⟩
